import Mathlib

/-!
Shallow embedding of `export_pdf.py`, a script that converts a saved HTML
page into a PDF by serving it over a transient local HTTP server and
driving a headless Chrome/Chromium browser with print flags.

Operating-system effects are abstracted:
  * filesystem queries (`Path.is_file`, `Path.exists`, `shutil.which`)
    are fields of an `FS` structure;
  * the subprocess invocation (`subprocess.run`) is an oracle mapping a
    command line to a completed result (exit code, stdout, stderr);
  * server lifecycle and subprocess execution are recorded as an ordered
    event trace, so that "shutdown is requested on every exit path" is a
    statement about the trace.
Paths are modelled as the pair of their directory part and final
component (what `pathlib` exposes as `.parent` and `.name`).
-/

namespace ExportPdf

/-- Abstract filesystem: regular-file test, existence test, and the
executable search (`shutil.which`).  A path that is a regular file
exists; `which` never resolves to anything for a name it cannot find. -/
structure FS where
  isFile : String → Bool
  pathExists : String → Bool
  which : String → Option String
  file_exists : ∀ p, isFile p = true → pathExists p = true

/-- Python truthiness of an optional string: `None` and `""` are falsy. -/
def pyTruthy : Option String → Bool
  | none => false
  | some s => !s.isEmpty

/-- The fixed candidate binary names searched by `find_browser`, in
source order (lines 37-43). -/
def browser_candidates : List String :=
  ["google-chrome", "chromium-browser", "chromium", "chrome", "msedge"]

/-- First candidate resolved by `shutil.which`, scanning left to right
(the `for candidate in (...)` loop, lines 37-46). -/
def which_first (fs : FS) : List String → Option String
  | [] => none
  | c :: rest =>
    match fs.which c with
    | some r => some r
    | none => which_first fs rest

/-- The no-explicit-path branch of `find_browser` (lines 37-50): return
the first resolved candidate, else raise `FileNotFoundError`. -/
def find_browser_search (fs : FS) : Except String String :=
  match which_first fs browser_candidates with
  | some r => Except.ok r
  | none =>
    Except.error
      "No Chrome/Chromium executable found. Use --browser to point to an existing binary."

/-- `find_browser` (lines 21-50).  `if explicit_path:` is Python
truthiness, so both `None` and the empty string fall through to the
candidate search.  `pathlib.Path` construction and `str` rendering are
modelled as the identity on path strings. -/
def find_browser (fs : FS) (explicit_path : Option String) : Except String String :=
  if pyTruthy explicit_path then
    let p := explicit_path.getD ""
    if fs.isFile p && fs.pathExists p then
      Except.ok p
    else
      Except.error ("Browser binary not found at provided path: " ++ p)
  else
    find_browser_search fs

/-- A `pathlib` path, modelled by the two components the script uses:
the containing directory (`.parent`, rendered as a string) and the final
component (`.name`). -/
structure PyPath where
  parent : String
  name : String
deriving DecidableEq, Repr

/-- String rendering of a path (`str(path)` / f-string interpolation). -/
def pathStr (p : PyPath) : String :=
  if p.parent.isEmpty then p.name else p.parent ++ "/" ++ p.name

/-- The suffix (extension) of a final path component, following
`pathlib.PurePath.suffix`: the part of the name from its last dot on,
provided that dot is neither the first nor the last character. -/
def lastIndexOf (c : Char) : List Char → Option Nat
  | [] => none
  | x :: xs =>
    match lastIndexOf c xs with
    | some i => some (i + 1)
    | none => if x = c then some 0 else none

/-- `pathlib.PurePath.suffix` computed on a name string. -/
def pySuffix (name : String) : String :=
  match lastIndexOf '.' name.data with
  | some i =>
    if 0 < i ∧ i < name.data.length - 1 then String.mk (name.data.drop i) else ""
  | none => ""

/-- `pathlib.PurePath.with_suffix` on a name string: replace the current
suffix when there is one, otherwise append the new suffix. -/
def pyWithSuffix (name suffix : String) : String :=
  let old := pySuffix name
  if old.isEmpty then name ++ suffix
  else String.mk (name.data.take (name.data.length - old.data.length)) ++ suffix

/-- `Path.with_suffix` lifted to paths: the directory is unchanged. -/
def with_suffix (p : PyPath) (suffix : String) : PyPath :=
  { p with name := pyWithSuffix p.name suffix }

/-- Resolution of the output PDF path in `main` (lines 143-147): the
optional positional argument if given, else the HTML path with its
extension replaced by `.pdf`. -/
def resolve_output_pdf (html_path : PyPath) (output_arg : Option PyPath) : PyPath :=
  match output_arg with
  | some p => p
  | none => with_suffix html_path ".pdf"

/-- UTF-8 encoding of one character, as the list of its byte values. -/
def utf8Bytes (c : Char) : List Nat :=
  let n := c.toNat
  if n < 0x80 then [n]
  else if n < 0x800 then [0xC0 + n / 0x40, 0x80 + n % 0x40]
  else if n < 0x10000 then
    [0xE0 + n / 0x1000, 0x80 + n / 0x40 % 0x40, 0x80 + n % 0x40]
  else
    [0xF0 + n / 0x40000, 0x80 + n / 0x1000 % 0x40, 0x80 + n / 0x40 % 0x40,
      0x80 + n % 0x40]

/-- Bytes left intact by `urllib.parse.quote` with its default `safe="/"`:
ASCII letters, digits, `_ . - ~`, and the slash. -/
def isQuoteSafe (b : Nat) : Bool :=
  (65 ≤ b && b ≤ 90) || (97 ≤ b && b ≤ 122) || (48 ≤ b && b ≤ 57) ||
    b == 45 || b == 46 || b == 95 || b == 126 || b == 47

/-- Upper-case hexadecimal digit for a value below 16. -/
def hexDigit (n : Nat) : Char :=
  if n < 10 then Char.ofNat (48 + n) else Char.ofNat (55 + n)

/-- Percent-escape of a single byte, `%XX` with upper-case hex. -/
def percentEncodeByte (b : Nat) : List Char :=
  ['%', hexDigit (b / 16), hexDigit (b % 16)]

/-- `urllib.parse.quote` with default arguments: UTF-8 encode, keep safe
bytes, percent-escape the rest. -/
def pyQuote (s : String) : String :=
  String.mk
    (((s.data.map utf8Bytes).flatten.map fun b =>
        if isQuoteSafe b then [Char.ofNat b] else percentEncodeByte b).flatten)

/-- `build_print_command` (lines 65-78).  The output path is received
already rendered as a string (the f-string applies `str`). -/
def build_print_command (browser url output_pdf : String) (wait_ms : Int) :
    List String :=
  [browser,
    "--headless=new",
    "--disable-gpu",
    "--no-sandbox",
    "--virtual-time-budget=" ++ toString wait_ms,
    "--print-to-pdf=" ++ output_pdf,
    url]

/-- Result of a completed subprocess (`subprocess.CompletedProcess` with
`capture_output=True, text=True`). -/
structure SubprocessResult where
  returncode : Int
  stdout : String
  stderr : String
deriving DecidableEq, Repr

/-- The ambient operating system for one export call: the ephemeral port
the OS assigns to the server socket, and the outcome of running any
command as a subprocess. -/
structure World where
  serverPort : Nat
  runProcess : List String → SubprocessResult

/-- Observable side effects of the orchestrator, in order. -/
inductive Event where
  | serverStart (rootDir : String)
  | run (command : List String)
  | serverShutdown
  | threadJoin (timeoutSec : Nat)
deriving DecidableEq, Repr

/-- The running server as seen by the caller (`server.server_address`). -/
structure ServerHandle where
  host : String
  port : Nat

/-- `start_server` (lines 53-62): bind `("127.0.0.1", 0)`, letting the
OS pick the port, and serve on a background thread. -/
def start_server (w : World) (root_directory : String) :
    ServerHandle × List Event :=
  ({ host := "127.0.0.1", port := w.serverPort },
    [Event.serverStart root_directory])

/-- The URL built by `export_to_pdf` (lines 85-87): the server's bound
host and port, with the percent-encoded HTML file name as the path. -/
def export_url (server : ServerHandle) (html_path : PyPath) : String :=
  "http://" ++ server.host ++ ":" ++ toString server.port ++ "/" ++
    pyQuote html_path.name

/-- The full command line `export_to_pdf` executes (line 90). -/
def export_command (w : World) (html_path output_pdf : PyPath) (wait_ms : Int)
    (browser : String) : List String :=
  build_print_command browser
    (export_url (start_server w html_path.parent).1 html_path)
    (pathStr output_pdf) wait_ms

/-- The `RuntimeError` message raised on a non-zero exit (lines 93-98). -/
def pdf_error_message (command : List String) (result : SubprocessResult) :
    String :=
  "Browser failed to generate PDF.\n" ++
    "Command: " ++ String.intercalate " " command ++ "\n" ++
    "stdout: " ++ result.stdout ++ "\n" ++
    "stderr: " ++ result.stderr

/-- `export_to_pdf` (lines 81-101): start the server, run the browser
with `check=False`, raise on a non-zero exit code, and in all cases
(`try`/`finally`) request server shutdown and join the thread with a
2-second timeout.  Returns the outcome together with the event trace;
the `finally` events are appended on the success and the error path
alike. -/
def export_to_pdf (w : World) (html_path output_pdf : PyPath) (wait_ms : Int)
    (browser : String) : Except String Unit × List Event :=
  let (server, ev0) := start_server w html_path.parent
  let url := export_url server html_path
  let command := build_print_command browser url (pathStr output_pdf) wait_ms
  let result := w.runProcess command
  let body : Except String Unit :=
    if result.returncode ≠ 0 then
      Except.error (pdf_error_message command result)
    else
      Except.ok ()
  (body, ev0 ++ [Event.run command, Event.serverShutdown, Event.threadJoin 2])

/-- A filesystem where exactly one path, `/opt/chrome`, is a regular
file, and nothing resolves on the search path. -/
def fsOneFile : FS where
  isFile p := p == "/opt/chrome"
  pathExists p := p == "/opt/chrome"
  which _ := none
  file_exists _ h := h

/-- A filesystem with no regular files where every candidate name
resolves on the search path. -/
def fsWhichAll : FS where
  isFile _ := false
  pathExists _ := false
  which c := some ("/usr/bin/" ++ c)
  file_exists _ h := Bool.noConfusion h

/-- A filesystem with no regular files where, of the candidate names,
exactly `chromium` resolves. -/
def fsChromium : FS where
  isFile _ := false
  pathExists _ := false
  which c := if c == "chromium" then some "/usr/bin/chromium" else none
  file_exists _ h := Bool.noConfusion h

/-- A world whose subprocess invariably fails with exit code 1 and
`boom` on stderr. -/
def wBoom : World where
  serverPort := 35859
  runProcess _ := { returncode := 1, stdout := "", stderr := "boom" }

/-- A concrete HTML input path used to instantiate theorems. -/
def pReport : PyPath := ⟨"/home/user", "report.htm"⟩

/-- A concrete output path used to instantiate theorems. -/
def pOut : PyPath := ⟨"/home/user", "report.pdf"⟩

/-- If every name in the list fails to resolve, the scan yields nothing. -/
theorem which_first_eq_none (fs : FS) (l : List String)
    (hall : ∀ c ∈ l, fs.which c = none) : which_first fs l = none := by
  induction l with
  | nil => rfl
  | cons x xs ih =>
    have hx := hall x (List.mem_cons_self x xs)
    simp only [which_first, hx]
    exact ih fun c hc => hall c (List.mem_cons_of_mem x hc)

/-- The scan returns the resolution of the first name that resolves. -/
theorem which_first_eq_some (fs : FS) (l : List String) (i : Nat) (c r : String)
    (hi : l[i]? = some c) (hc : fs.which c = some r)
    (hb : ∀ j, j < i → ∀ d, l[j]? = some d → fs.which d = none) :
    which_first fs l = some r := by
  induction l generalizing i with
  | nil => simp at hi
  | cons x xs ih =>
    cases i with
    | zero =>
      simp only [List.getElem?_cons_zero, Option.some.injEq] at hi
      subst hi
      simp [which_first, hc]
    | succ n =>
      have hx : fs.which x = none := hb 0 (Nat.succ_pos n) x (by simp)
      simp only [List.getElem?_cons_succ] at hi
      simp only [which_first, hx]
      refine ih n hi fun j hj d hd => hb (j + 1) (Nat.succ_lt_succ hj) d ?_
      simpa using hd

/-- C3: for every explicit browser path string that names an existing
regular file, `find_browser` succeeds and returns that exact path string
unchanged. -/
theorem find_browser_C3 (fs : FS) (p : String) (hne : p ≠ "")
    (hf : fs.isFile p = true) : find_browser fs (some p) = Except.ok p := by
  have hempty : p.isEmpty = false := by
    cases h : p.isEmpty with
    | false => rfl
    | true => exact absurd ((String.isEmpty_iff p).mp h) hne
  have hex : fs.pathExists p = true := fs.file_exists p hf
  simp [find_browser, pyTruthy, hempty, hf, hex]

/-- Witness for C3: on `fsOneFile`, the explicit path `/opt/chrome`
names a regular file and is returned verbatim. -/
theorem find_browser_C3_witness :
    find_browser fsOneFile (some "/opt/chrome") = Except.ok "/opt/chrome" :=
  find_browser_C3 fsOneFile "/opt/chrome" (by decide) (by decide)

/-- C4: for every non-empty explicit path that does not name an existing
regular file, `find_browser` fails with the not-found error carrying the
attempted path; `fs.which` is unconstrained, so the candidate search is
never consulted. -/
theorem find_browser_C4 (fs : FS) (p : String) (hne : p ≠ "")
    (hf : fs.isFile p = false) :
    find_browser fs (some p) =
      Except.error ("Browser binary not found at provided path: " ++ p) := by
  have hempty : p.isEmpty = false := by
    cases h : p.isEmpty with
    | false => rfl
    | true => exact absurd ((String.isEmpty_iff p).mp h) hne
  simp [find_browser, pyTruthy, hempty, hf]

/-- Witness for C4: on `fsWhichAll`, where every candidate name would
resolve on the search path, a bad explicit path still fails with the
not-found-at-path error. -/
theorem find_browser_C4_witness :
    find_browser fsWhichAll (some "/nope") =
      Except.error ("Browser binary not found at provided path: " ++ "/nope") :=
  find_browser_C4 fsWhichAll "/nope" (by decide) rfl

/-- C5: with no explicit path, `find_browser` scans the fixed five-name
candidate list in order, returns the first resolution, and fails with
the instructive no-browser error when none resolve. -/
theorem find_browser_C5 (fs : FS) :
    browser_candidates =
        ["google-chrome", "chromium-browser", "chromium", "chrome", "msedge"] ∧
    (∀ (i : Nat) (c r : String),
      browser_candidates[i]? = some c → fs.which c = some r →
      (∀ j, j < i → ∀ d, browser_candidates[j]? = some d → fs.which d = none) →
      find_browser fs none = Except.ok r) ∧
    ((∀ c ∈ browser_candidates, fs.which c = none) →
      find_browser fs none =
        Except.error
          "No Chrome/Chromium executable found. Use --browser to point to an existing binary.") := by
  refine ⟨rfl, ?_, ?_⟩
  · intro i c r hi hc hb
    have h := which_first_eq_some fs browser_candidates i c r hi hc hb
    simp [find_browser, pyTruthy, find_browser_search, h]
  · intro hall
    have h := which_first_eq_none fs browser_candidates hall
    simp [find_browser, pyTruthy, find_browser_search, h]

/-- Witness for C5: on `fsChromium` the first two candidates fail to
resolve and the third, `chromium`, is returned. -/
theorem find_browser_C5_witness :
    find_browser fsChromium none = Except.ok "/usr/bin/chromium" :=
  (find_browser_C5 fsChromium).2.1 2 "chromium" "/usr/bin/chromium" rfl rfl
    (by decide)

/-- C9: an explicit empty-string path is falsy in Python, so
`find_browser` behaves exactly as if no explicit path had been given. -/
theorem find_browser_C9 (fs : FS) :
    find_browser fs (some "") = find_browser fs none := rfl

/-- C2: `build_print_command` is a pure function (a Lean function, so
identical inputs give identical output by construction) returning the
browser path followed by the three fixed flags, the virtual-time-budget
flag whose value is exactly the wait parameter, the print-to-pdf flag
whose value is exactly the output path, and the URL last. -/
theorem build_print_command_C2 (b u o : String) (w : Int) :
    build_print_command b u o w =
      [b, "--headless=new", "--disable-gpu", "--no-sandbox",
        "--virtual-time-budget=" ++ toString w,
        "--print-to-pdf=" ++ o, u] ∧
    (build_print_command b u o w).getLast? = some u :=
  ⟨rfl, rfl⟩

/-- C7: with no output argument, the resolved output path keeps the HTML
file's directory and replaces the name's extension with `.pdf`; in
particular `report.htm` resolves to `report.pdf` in the same directory. -/
theorem resolve_output_pdf_C7 :
    (∀ d : String,
      resolve_output_pdf ⟨d, "report.htm"⟩ none = ⟨d, "report.pdf"⟩) ∧
    (∀ h : PyPath, (resolve_output_pdf h none).parent = h.parent) := by
  constructor
  · intro d
    have hname : pyWithSuffix "report.htm" ".pdf" = "report.pdf" := by decide
    simp [resolve_output_pdf, with_suffix, hname]
  · intro h
    simp [resolve_output_pdf, with_suffix]

/-- C1: on every exit path — the subprocess result is arbitrary, so this
covers exit code 0 and every non-zero exit — the trace of
`export_to_pdf` ends by requesting server shutdown and joining the
background thread with the bounded 2-second timeout. -/
theorem export_to_pdf_C1 (w : World) (h o : PyPath) (wa : Int) (b : String) :
    ∃ command, (export_to_pdf w h o wa b).2 =
      [Event.serverStart h.parent, Event.run command,
        Event.serverShutdown, Event.threadJoin 2] :=
  ⟨export_command w h o wa b, rfl⟩

/-- C8: the command `export_to_pdf` runs carries, as its last argument,
a URL built from the server's bound host and port whose path is the
percent-encoded HTML file name (the name only, not its directory). -/
theorem export_to_pdf_C8 (w : World) (h o : PyPath) (wa : Int) (b : String) :
    Event.run (export_command w h o wa b) ∈ (export_to_pdf w h o wa b).2 ∧
    (export_command w h o wa b).getLast? =
      some (export_url (start_server w h.parent).1 h) ∧
    export_url (start_server w h.parent).1 h =
      "http://127.0.0.1:" ++ toString w.serverPort ++ "/" ++ pyQuote h.name := by
  refine ⟨?_, rfl, ?_⟩
  · simp [export_to_pdf, export_command, start_server, export_url,
      build_print_command]
  · simp [export_url, start_server, String.append_assoc]

/-- C6: whenever the subprocess result has a non-zero exit code,
`export_to_pdf` fails with the `RuntimeError` message, and that message
contains the space-joined full command line, the captured stdout, and
the captured stderr. -/
theorem export_to_pdf_C6 (w : World) (h o : PyPath) (wa : Int) (b : String)
    (hrc : (w.runProcess (export_command w h o wa b)).returncode ≠ 0) :
    (export_to_pdf w h o wa b).1 =
      Except.error (pdf_error_message (export_command w h o wa b)
        (w.runProcess (export_command w h o wa b))) ∧
    (∃ s t, pdf_error_message (export_command w h o wa b)
        (w.runProcess (export_command w h o wa b)) =
      s ++ String.intercalate " " (export_command w h o wa b) ++ t) ∧
    (∃ s t, pdf_error_message (export_command w h o wa b)
        (w.runProcess (export_command w h o wa b)) =
      s ++ (w.runProcess (export_command w h o wa b)).stdout ++ t) ∧
    (∃ s, pdf_error_message (export_command w h o wa b)
        (w.runProcess (export_command w h o wa b)) =
      s ++ (w.runProcess (export_command w h o wa b)).stderr) := by
  have hdef : (export_to_pdf w h o wa b).1 =
      if (w.runProcess (export_command w h o wa b)).returncode ≠ 0 then
        Except.error (pdf_error_message (export_command w h o wa b)
          (w.runProcess (export_command w h o wa b)))
      else Except.ok () := rfl
  refine ⟨by rw [hdef, if_pos hrc], ?_, ?_, ?_⟩
  · refine ⟨"Browser failed to generate PDF.\nCommand: ",
      "\nstdout: " ++
        ((w.runProcess (export_command w h o wa b)).stdout ++
          ("\nstderr: " ++
            (w.runProcess (export_command w h o wa b)).stderr)), ?_⟩
    simp [pdf_error_message, String.append_assoc]
  · refine ⟨"Browser failed to generate PDF.\nCommand: " ++
      String.intercalate " " (export_command w h o wa b) ++ "\nstdout: ",
      "\nstderr: " ++
        (w.runProcess (export_command w h o wa b)).stderr, ?_⟩
    simp [pdf_error_message, String.append_assoc]
  · exact ⟨"Browser failed to generate PDF.\n" ++ "Command: " ++
      String.intercalate " " (export_command w h o wa b) ++ "\n" ++
        "stdout: " ++ (w.runProcess (export_command w h o wa b)).stdout ++
          "\n" ++ "stderr: ", rfl⟩

/-- Witness for C6: in the world `wBoom`, whose subprocess exits with
code 1, the export fails with the diagnostic `RuntimeError` message. -/
theorem export_to_pdf_C6_witness :
    (wBoom.runProcess (export_command wBoom pReport pOut 10000 "/opt/chrome")).returncode ≠ 0 ∧
    (export_to_pdf wBoom pReport pOut 10000 "/opt/chrome").1 =
      Except.error (pdf_error_message
        (export_command wBoom pReport pOut 10000 "/opt/chrome")
        (wBoom.runProcess (export_command wBoom pReport pOut 10000 "/opt/chrome"))) :=
  ⟨by decide, (export_to_pdf_C6 wBoom pReport pOut 10000 "/opt/chrome" (by decide)).1⟩

/-- C10: `export_to_pdf` fails exactly when the subprocess exit code is
non-zero; on exit code 0 it returns success — the model, like the
source, performs no check that a file exists at the output path. -/
theorem export_to_pdf_C10 (w : World) (h o : PyPath) (wa : Int) (b : String) :
    (∃ e, (export_to_pdf w h o wa b).1 = Except.error e) ↔
      (w.runProcess (export_command w h o wa b)).returncode ≠ 0 := by
  have hdef : (export_to_pdf w h o wa b).1 =
      if (w.runProcess (export_command w h o wa b)).returncode ≠ 0 then
        Except.error (pdf_error_message (export_command w h o wa b)
          (w.runProcess (export_command w h o wa b)))
      else Except.ok () := rfl
  rw [hdef]
  by_cases hrc : (w.runProcess (export_command w h o wa b)).returncode ≠ 0
  · simp [hrc]
  · simp [hrc]

end ExportPdf
